import Mathlib

/-!
Shallow embedding of the Sentry JavaScript span data contract
(packages/types/src/span.ts) together with the span operations that the
interface declares.  The interface file itself contains only type
declarations; the runtime behavior of the operations is modelled from the
specification, as noted on each definition.
-/

set_option autoImplicit false

namespace Sentry

/-- Modelled from the spec: the Primitive value union used for tag values
(string, number, boolean, null/absence); the type itself lives in
packages/types/src/misc.ts, which is not part of the embedded sources. -/
inductive Primitive where
  | str : String → Primitive
  | num : Rat → Primitive
  | boolean : Bool → Primitive
  | null : Primitive
deriving DecidableEq, Repr

/-- Modelled from the spec: arbitrary values stored in the data mapping
(the source type is `unknown`); scalars suffice for every property stated
about the data mapping. -/
inductive JSValue where
  | str : String → JSValue
  | num : Rat → JSValue
  | boolean : Bool → JSValue
  | null : JSValue
deriving DecidableEq, Repr

/-- A string-keyed record, as used for the tags and data mappings of a span. -/
abbrev Record (α : Type) : Type := List (String × α)

/-- Look up a key in a record, returning the first binding if any. -/
def lookupKey {α : Type} (k : String) : Record α → Option α
  | [] => none
  | (k', v) :: rest => if k' = k then some v else lookupKey k rest

/-- Bind a key in a record, overwriting the first existing binding. -/
def setKey {α : Type} (k : String) (v : α) : Record α → Record α
  | [] => [(k, v)]
  | (k', v') :: rest =>
      if k' = k then (k, v) :: rest else (k', v') :: setKey k v rest

/-- Remove every binding of a key from a record. -/
def removeKey {α : Type} (k : String) (m : Record α) : Record α :=
  m.filter (fun p => p.1 ≠ k)

/-- SpanContext from packages/types/src/span.ts: the configuration shape
with every field optional. -/
structure SpanContext where
  tags : Option (Record Primitive) := none
  traceId : Option String := none
  op : Option String := none
  description : Option String := none
  startTimestamp : Option Rat := none
  endTimestamp : Option Rat := none
  status : Option String := none
  data : Option (Record JSValue) := none
  parentSpanId : Option String := none
  spanId : Option String := none
  sampled : Option Bool := none
deriving DecidableEq, Repr

/-- ChildSpanContext embeds the parameter type of child/startChild from
packages/types/src/span.ts: Pick of SpanContext excluding the four
system-assigned keys spanId, sampled, traceId and parentSpanId, so only
the seven remaining fields can be supplied by a caller. -/
structure ChildSpanContext where
  tags : Option (Record Primitive) := none
  op : Option String := none
  description : Option String := none
  startTimestamp : Option Rat := none
  endTimestamp : Option Rat := none
  status : Option String := none
  data : Option (Record JSValue) := none
deriving DecidableEq, Repr

/-- View of a ChildSpanContext as a full SpanContext: the four excluded
keys have no binding, because the parameter type omits them. -/
def ChildSpanContext.toSpanContext (c : ChildSpanContext) : SpanContext :=
  { tags := c.tags, op := c.op, description := c.description,
    startTimestamp := c.startTimestamp, endTimestamp := c.endTimestamp,
    status := c.status, data := c.data,
    traceId := none, parentSpanId := none, spanId := none, sampled := none }

/-- Span from packages/types/src/span.ts: extends SpanContext with the
required fields spanId, traceId, startTimestamp, tags and data, and an
optional back-reference to the owning transaction (modelled as an index
into a transaction registry, following the spec). -/
structure Span where
  spanId : String
  traceId : String
  startTimestamp : Rat
  tags : Record Primitive
  data : Record JSValue
  op : Option String := none
  description : Option String := none
  status : Option String := none
  parentSpanId : Option String := none
  sampled : Option Bool := none
  endTimestamp : Option Rat := none
  transaction : Option Nat := none
deriving DecidableEq, Repr

namespace Span

/-- Modelled from the spec: finish sets endTimestamp to the given value,
or to the current clock time when no value is given; the clock is the
external collaborator of section 6 and is passed explicitly. -/
def finish (s : Span) (endTimestamp : Option Rat) (now : Rat) : Span :=
  { s with endTimestamp := some (endTimestamp.getD now) }

/-- Modelled from the spec: setTag binds tags at the key, and passing
undefined (none) removes the key entirely; the updated span is returned
for chaining. -/
def setTag (s : Span) (key : String) (value : Option Primitive) : Span :=
  match value with
  | some v => { s with tags := setKey key v s.tags }
  | none => { s with tags := removeKey key s.tags }

/-- Modelled from the spec: setData binds data at the key unconditionally
and returns the updated span. -/
def setData (s : Span) (key : String) (value : JSValue) : Span :=
  { s with data := setKey key value s.data }

/-- Modelled from the spec: setStatus stores the given status string
without validation and returns the updated span. -/
def setStatus (s : Span) (status : String) : Span :=
  { s with status := some status }

end Span

/-- Modelled from the spec: the external status-mapping collaborator of
section 6, taking a numeric HTTP code to a status string from the listed
vocabulary; it is total and deterministic, mapping success codes to ok
and unrecognized codes to the unknown fallback. -/
def spanStatusFromHttpCode (code : Int) : String :=
  if code < 400 then "ok"
  else if code < 500 then
    if code = 401 then "unauthenticated"
    else if code = 403 then "permission_denied"
    else if code = 404 then "not_found"
    else if code = 409 then "already_exists"
    else if code = 413 then "failed_precondition"
    else if code = 429 then "resource_exhausted"
    else "invalid_argument"
  else if code < 600 then
    if code = 501 then "unimplemented"
    else if code = 503 then "unavailable"
    else if code = 504 then "deadline_exceeded"
    else "internal_error"
  else "unknown_error"

namespace Span

/-- Modelled from the spec: setHttpStatus computes the status through the
status-mapping collaborator and records the numeric code into both the
data and the tags mappings under the conventional http.status_code key,
returning the updated span. -/
def setHttpStatus (s : Span) (httpStatus : Int) : Span :=
  let withTag := setTag s "http.status_code" (some (Primitive.num httpStatus))
  let withData := setData withTag "http.status_code" (JSValue.num httpStatus)
  setStatus withData (spanStatusFromHttpCode httpStatus)

/-- Modelled from the spec: startChild creates a new span whose
parentSpanId is the spanId of this span, whose traceId and sampled flag are
inherited, whose remaining fields come from the supplied context with
fresh-span defaults, and whose transaction reference is inherited; the
fresh span id comes from the random-identifier collaborator and the
current time from the clock, both passed explicitly.  Per the invariant
that endTimestamp is undefined until finish is called, the new span
starts unfinished. -/
def startChild (s : Span) (ctx : ChildSpanContext) (freshSpanId : String)
    (now : Rat) : Span :=
  { spanId := freshSpanId,
    traceId := s.traceId,
    parentSpanId := some s.spanId,
    sampled := s.sampled,
    startTimestamp := ctx.startTimestamp.getD now,
    tags := ctx.tags.getD [],
    data := ctx.data.getD [],
    op := ctx.op,
    description := ctx.description,
    status := ctx.status,
    endTimestamp := none,
    transaction := s.transaction }

/-- Modelled from the spec: child is the deprecated alias of startChild,
a pure call-through. -/
def child (s : Span) (ctx : ChildSpanContext) (freshSpanId : String)
    (now : Rat) : Span :=
  startChild s ctx freshSpanId now

/-- Modelled from the spec: isSuccess returns true exactly when the
status equals the ok status value. -/
def isSuccess (s : Span) : Bool :=
  s.status = some "ok"

/-- Modelled from the spec: toTraceparent emits traceId and spanId
verbatim with the sampled flag bit, in the layout traceId-spanId-flag. -/
def toTraceparent (s : Span) : String :=
  s.traceId ++ "-" ++ s.spanId ++ "-" ++
    (match s.sampled with
      | some true => "1"
      | _ => "0")

end Span

/-- Return type of getTraceContext from packages/types/src/span.ts: the
snake_case wire projection, with span_id and trace_id required and every
other field optional. -/
structure TraceContext where
  data : Option (Record JSValue)
  description : Option String
  op : Option String
  parent_span_id : Option String
  span_id : String
  status : Option String
  tags : Option (Record Primitive)
  trace_id : String
deriving DecidableEq, Repr

/-- Return type of toJSON from packages/types/src/span.ts: the trace
context projection plus the required start_timestamp and the optional
end timestamp. -/
structure SpanJSON where
  data : Option (Record JSValue)
  description : Option String
  op : Option String
  parent_span_id : Option String
  span_id : String
  start_timestamp : Rat
  status : Option String
  tags : Option (Record Primitive)
  timestamp : Option Rat
  trace_id : String
deriving DecidableEq, Repr

namespace Span

/-- Modelled from the spec: getTraceContext projects the span onto the
snake_case wire fields, omitting any field whose internal value is
undefined; the tags and data mappings are always defined on a span and
are therefore always present. -/
def getTraceContext (s : Span) : TraceContext :=
  { data := some s.data,
    description := s.description,
    op := s.op,
    parent_span_id := s.parentSpanId,
    span_id := s.spanId,
    status := s.status,
    tags := some s.tags,
    trace_id := s.traceId }

/-- Modelled from the spec: toJSON is the getTraceContext projection plus
the required start_timestamp and the end timestamp, which is omitted
while the span is unfinished. -/
def toJSON (s : Span) : SpanJSON :=
  { data := some s.data,
    description := s.description,
    op := s.op,
    parent_span_id := s.parentSpanId,
    span_id := s.spanId,
    start_timestamp := s.startTimestamp,
    status := s.status,
    tags := some s.tags,
    timestamp := s.endTimestamp,
    trace_id := s.traceId }

end Span

/-! Helper lemmas about the record operations. -/

theorem lookupKey_setKey {α : Type} (k : String) (v : α) (m : Record α) :
    lookupKey k (setKey k v m) = some v := by
  induction m with
  | nil => simp [setKey, lookupKey]
  | cons p rest ih =>
      obtain ⟨k2, v2⟩ := p
      by_cases h : k2 = k
      · simp [setKey, h, lookupKey]
      · simp [setKey, h, lookupKey, ih]

theorem lookupKey_removeKey {α : Type} (k : String) (m : Record α) :
    lookupKey k (removeKey k m) = none := by
  induction m with
  | nil => rfl
  | cons p rest ih =>
      obtain ⟨k2, v2⟩ := p
      by_cases h : k2 = k
      · simpa [removeKey, List.filter, h] using ih
      · simpa [removeKey, List.filter, h, lookupKey] using ih

/-! Claim theorems. -/

/-- C1: for every span s and every allowed partial context c, the span
returned by startChild has parentSpanId equal to the spanId of s, traceId
equal to the traceId of s, and the sampled flag of s, whatever fresh id
and clock value the collaborators supply, so the sampling decision is
copied at creation and never recomputed. -/
theorem C1_startChild_inherits (s : Span) (c : ChildSpanContext)
    (sid : String) (now : Rat) :
    (s.startChild c sid now).parentSpanId = some s.spanId ∧
    (s.startChild c sid now).traceId = s.traceId ∧
    (s.startChild c sid now).sampled = s.sampled :=
  ⟨rfl, rfl, rfl⟩

/-- C2: toTraceparent returns exactly traceId-spanId-flag where the flag
is 1 when sampled is true and 0 otherwise, identifiers emitted verbatim;
instantiated at the concrete example from the spec. -/
theorem C2_toTraceparent_layout (s : Span) :
    (s.toTraceparent = s.traceId ++ "-" ++ s.spanId ++ "-" ++
      (if s.sampled = some true then "1" else "0")) ∧
    Span.toTraceparent
      { spanId := "6e0c63257de34c92",
        traceId := "d4cda95b652f4a1592b449d5929fda1b",
        startTimestamp := 0, tags := [], data := [],
        sampled := some true } =
      "d4cda95b652f4a1592b449d5929fda1b-6e0c63257de34c92-1" := by
  constructor
  · rcases hs : s.sampled with _ | b
    · simp [Span.toTraceparent, hs]
    · cases b <;> simp [Span.toTraceparent, hs]
  · rfl

/-- C3: getTraceContext returns the snake_case snapshot whose fields are
exactly the internal values (span_id and trace_id always present, each
optional field absent exactly when the internal value is undefined, tags
and data always defined on a span and hence always present), and toJSON
returns the same snapshot plus the required start_timestamp and a
timestamp that is absent on a freshly created span and present after
finish is called. -/
theorem C3_trace_context_and_json (s : Span) (c : ChildSpanContext)
    (sid : String) (e : Option Rat) (now : Rat) :
    (s.getTraceContext.span_id = s.spanId ∧
     s.getTraceContext.trace_id = s.traceId ∧
     s.getTraceContext.op = s.op ∧
     s.getTraceContext.description = s.description ∧
     s.getTraceContext.status = s.status ∧
     s.getTraceContext.parent_span_id = s.parentSpanId ∧
     s.getTraceContext.tags = some s.tags ∧
     s.getTraceContext.data = some s.data) ∧
    (s.toJSON.span_id = s.getTraceContext.span_id ∧
     s.toJSON.trace_id = s.getTraceContext.trace_id ∧
     s.toJSON.op = s.getTraceContext.op ∧
     s.toJSON.description = s.getTraceContext.description ∧
     s.toJSON.status = s.getTraceContext.status ∧
     s.toJSON.parent_span_id = s.getTraceContext.parent_span_id ∧
     s.toJSON.tags = s.getTraceContext.tags ∧
     s.toJSON.data = s.getTraceContext.data ∧
     s.toJSON.start_timestamp = s.startTimestamp ∧
     s.toJSON.timestamp = s.endTimestamp) ∧
    ((s.startChild c sid now).toJSON.timestamp = none) ∧
    ((s.finish e now).toJSON.timestamp = some (e.getD now)) := by
  refine ⟨⟨rfl, rfl, rfl, rfl, rfl, rfl, rfl, rfl⟩,
    ⟨rfl, rfl, rfl, rfl, rfl, rfl, rfl, rfl, rfl, rfl⟩, rfl, rfl⟩

/-- C4: finish with an explicit argument sets endTimestamp to exactly
that value, overwriting any prior value without error; finish with no
argument sets it to the current clock time; and a freshly created span
has endTimestamp undefined. -/
theorem C4_finish_semantics (s : Span) (t t1 n1 now : Rat)
    (c : ChildSpanContext) (sid : String) :
    ((s.finish (some t) now).endTimestamp = some t) ∧
    ((s.finish none now).endTimestamp = some now) ∧
    (((s.finish (some t1) n1).finish (some t) now).endTimestamp = some t) ∧
    ((s.startChild c sid now).endTimestamp = none) :=
  ⟨rfl, rfl, rfl, rfl⟩

/-- C5: isSuccess returns true exactly when status equals the ok status
value, and in particular a span whose status is unset yields false. -/
theorem C5_isSuccess_iff (s : Span) :
    (s.isSuccess = true ↔ s.status = some "ok") ∧
    Span.isSuccess
      { spanId := "a", traceId := "b", startTimestamp := 0,
        tags := [], data := [] } = false := by
  refine ⟨?_, rfl⟩
  simp [Span.isSuccess]

/-- C6: setTag with a value binds the key in tags and returns the updated
span, and setTag with undefined removes the key entirely, so after a set
followed by an unset the key is absent from tags. -/
theorem C6_setTag_set_unset (s : Span) (k : String) (v : Primitive) :
    (lookupKey k (s.setTag k (some v)).tags = some v) ∧
    (lookupKey k ((s.setTag k (some v)).setTag k none).tags = none) := by
  constructor
  · simpa [Span.setTag] using lookupKey_setKey k v s.tags
  · simpa [Span.setTag] using
      lookupKey_removeKey k (setKey k v s.tags)

/-- C7: setHttpStatus sets status to the image of the code under the
total, deterministic status mapping and records the numeric code into
both data and tags under the http.status_code key; in particular 200
gives the ok status with isSuccess true, 404 a non-ok status with
isSuccess false, and the unrecognized code 999 the deterministic unknown
fallback. -/
theorem C7_setHttpStatus_spec (s : Span) (code : Int) :
    ((s.setHttpStatus code).status = some (spanStatusFromHttpCode code)) ∧
    (lookupKey "http.status_code" (s.setHttpStatus code).tags =
      some (Primitive.num code)) ∧
    (lookupKey "http.status_code" (s.setHttpStatus code).data =
      some (JSValue.num code)) ∧
    ((s.setHttpStatus 200).status = some "ok") ∧
    ((s.setHttpStatus 200).isSuccess = true) ∧
    ((s.setHttpStatus 404).status = some "not_found") ∧
    ((s.setHttpStatus 404).status ≠ some "ok") ∧
    ((s.setHttpStatus 404).isSuccess = false) ∧
    ((s.setHttpStatus 999).status = some "unknown_error") := by
  refine ⟨rfl, ?_, ?_, by norm_num [Span.setHttpStatus, Span.setStatus,
      Span.setData, spanStatusFromHttpCode], ?_, ?_, ?_, ?_, ?_⟩
  · simpa [Span.setHttpStatus, Span.setStatus, Span.setData, Span.setTag]
      using lookupKey_setKey "http.status_code" (Primitive.num code) s.tags
  · simpa [Span.setHttpStatus, Span.setStatus, Span.setData, Span.setTag]
      using lookupKey_setKey "http.status_code" (JSValue.num code)
        (s.setTag "http.status_code" (some (Primitive.num code))).data
  · simp [Span.isSuccess, Span.setHttpStatus, Span.setStatus,
      spanStatusFromHttpCode]
  · norm_num [Span.setHttpStatus, Span.setStatus, spanStatusFromHttpCode]
  · simp [Span.setHttpStatus, Span.setStatus, spanStatusFromHttpCode]
  · simp [Span.isSuccess, Span.setHttpStatus, Span.setStatus,
      spanStatusFromHttpCode]
  · norm_num [Span.setHttpStatus, Span.setStatus, spanStatusFromHttpCode]

/-- C8: the parameter type of child and startChild excludes the four
system-assigned fields, so every allowed partial context, viewed as a
full SpanContext, supplies no spanId, no sampled flag, no traceId and no
parentSpanId. -/
theorem C8_child_context_excludes_system_fields (c : ChildSpanContext) :
    c.toSpanContext.spanId = none ∧
    c.toSpanContext.sampled = none ∧
    c.toSpanContext.traceId = none ∧
    c.toSpanContext.parentSpanId = none :=
  ⟨rfl, rfl, rfl, rfl⟩

/-- C9: spanId and traceId are immutable after construction: every
mutating operation of the interface preserves both, queries are pure in
the model, and a child created by startChild or by the deprecated alias
keeps the traceId of its parent, so one trace shares one traceId. -/
theorem C9_span_ids_immutable (s : Span) (e : Option Rat) (now : Rat)
    (k : String) (v : Option Primitive) (d : JSValue) (st : String)
    (code : Int) (c : ChildSpanContext) (sid : String) :
    ((s.finish e now).spanId = s.spanId ∧
     (s.finish e now).traceId = s.traceId) ∧
    ((s.setTag k v).spanId = s.spanId ∧
     (s.setTag k v).traceId = s.traceId) ∧
    ((s.setData k d).spanId = s.spanId ∧
     (s.setData k d).traceId = s.traceId) ∧
    ((s.setStatus st).spanId = s.spanId ∧
     (s.setStatus st).traceId = s.traceId) ∧
    ((s.setHttpStatus code).spanId = s.spanId ∧
     (s.setHttpStatus code).traceId = s.traceId) ∧
    ((s.startChild c sid now).traceId = s.traceId) ∧
    ((s.child c sid now).traceId = s.traceId) := by
  refine ⟨⟨rfl, rfl⟩, ⟨?_, ?_⟩, ⟨rfl, rfl⟩, ⟨rfl, rfl⟩,
    ⟨rfl, rfl⟩, rfl, rfl⟩ <;> cases v <;> rfl

/-- C10: the value returned by startChild, and by the deprecated alias
child, is itself a full span: the alias is a pure call-through, the child
takes its spanId from the fresh identifier and its startTimestamp, tags
and data from the context with fresh-span defaults, it can itself be
finished and serialized, and a grandchild at depth two again inherits the
traceId and sampled flag of the trace and the spanId of its parent. -/
theorem C10_spans_closed_under_children (s : Span) (c c2 : ChildSpanContext)
    (sid sid2 : String) (now now2 : Rat) (e : Option Rat) :
    (s.child c sid now = s.startChild c sid now) ∧
    ((s.startChild c sid now).spanId = sid) ∧
    ((s.startChild c sid now).startTimestamp = c.startTimestamp.getD now) ∧
    ((s.startChild c sid now).tags = c.tags.getD []) ∧
    ((s.startChild c sid now).data = c.data.getD []) ∧
    ((s.startChild c sid now).toJSON.span_id = sid) ∧
    (((s.startChild c sid now).finish e now2).endTimestamp =
      some (e.getD now2)) ∧
    (((s.startChild c sid now).startChild c2 sid2 now2).parentSpanId =
      some sid) ∧
    (((s.startChild c sid now).startChild c2 sid2 now2).traceId =
      s.traceId) ∧
    (((s.startChild c sid now).startChild c2 sid2 now2).sampled =
      s.sampled) :=
  ⟨rfl, rfl, rfl, rfl, rfl, rfl, rfl, rfl, rfl, rfl⟩

end Sentry
